import Mathlib

/-!
Verification of the StyleSync wardrobe assistant (src/production_app.py).

The file shallowly embeds the data model and the methods of the
StyleSyncBot class.  Pydantic models become Lean structures; the
wardrobe (a Python list of dicts) becomes a list of ItemDict records;
the external LLM (Model Gateway) is an explicit function argument, so
that invocations and failures can be stated; Streamlit rendering and
st.error calls are modelled as explicit output/event lists.
-/

/-- JSON values, modelling the Python json module's data model as used by
json.dumps / json.loads on the wardrobe (objects keep key order, as Python
dicts do). -/
inductive Json where
  | str (s : String)
  | num (n : Nat)
  | arr (elements : List Json)
  | obj (fields : List (String × Json))
deriving Repr

/-- Pydantic model ClothingItem (production_app.py lines 14-26).
The features field is Set[str] in Python: duplicates collapse and
enumeration order is unspecified; it is modelled as the list of the
set's distinct elements (first-occurrence enumeration). -/
structure ClothingItem where
  category : String
  description : String
  color : List String
  gender : String
  fabric : String
  pattern : String
  fit : String
  sleeve_length : String
  neck_type : String
  occasion : List String
  season : List String
  features : List String
deriving Repr, DecidableEq

/-- Pydantic model OutfitRecommendation (lines 28-31). -/
structure OutfitRecommendation where
  recommended_items : List String
  reasoning : String
  style_tips : List String
deriving Repr, DecidableEq

/-- The wardrobe entry produced by add_to_wardrobe (line 81-82):
json.loads(clothing_item.model_dump_json()) with the key id added.
Field order of the dict is the pydantic field order, id last. -/
structure ItemDict where
  category : String
  description : String
  color : List String
  gender : String
  fabric : String
  pattern : String
  fit : String
  sleeve_length : String
  neck_type : String
  occasion : List String
  season : List String
  features : List String
  id : Nat
deriving Repr, DecidableEq

/-- The mutable state of a StyleSyncBot (line 45: self.wardrobe = []). -/
structure StyleSyncBot where
  wardrobe : List ItemDict
deriving Repr, DecidableEq

/-- Result of one Model Gateway invocation: a parsed structured value, or a
raised exception carrying its message. -/
inductive GatewayResult (α : Type) where
  | ok (val : α)
  | exn (msg : String)
deriving Repr, DecidableEq

/-- The base64 alphabet used by base64.b64encode. -/
def base64Alphabet : List Char :=
  ['A', 'B', 'C', 'D', 'E', 'F', 'G', 'H', 'I', 'J', 'K', 'L', 'M',
   'N', 'O', 'P', 'Q', 'R', 'S', 'T', 'U', 'V', 'W', 'X', 'Y', 'Z',
   'a', 'b', 'c', 'd', 'e', 'f', 'g', 'h', 'i', 'j', 'k', 'l', 'm',
   'n', 'o', 'p', 'q', 'r', 's', 't', 'u', 'v', 'w', 'x', 'y', 'z',
   '0', '1', '2', '3', '4', '5', '6', '7', '8', '9', '+', '/']

/-- Character for a 6-bit group. -/
def b64c (n : Nat) : Char := base64Alphabet.getD n '*'

/-- base64.b64encode on a byte list (bytes taken mod 256), with padding. -/
def b64encode : List Nat → List Char
  | [] => []
  | [b1] =>
    let x := b1 % 256 * 65536
    [b64c (x / 262144), b64c (x / 4096 % 64), '=', '=']
  | [b1, b2] =>
    let x := b1 % 256 * 65536 + b2 % 256 * 256
    [b64c (x / 262144), b64c (x / 4096 % 64), b64c (x / 64 % 64), '=']
  | b1 :: b2 :: b3 :: rest =>
    let x := b1 % 256 * 65536 + b2 % 256 * 256 + b3 % 256
    b64c (x / 262144) :: b64c (x / 4096 % 64) :: b64c (x / 64 % 64) ::
      b64c (x % 64) :: b64encode rest

/-- encode_image (lines 47-49): base64-encode the image bytes and decode to
a string. -/
def StyleSyncBot.encode_image (image_bytes : List Nat) : String :=
  (b64encode image_bytes).asString

/-- The dict stored by add_to_wardrobe (lines 81-82):
item_dict = json.loads(clothing_item.model_dump_json()); item_dict[id] = n.
Serialising the Python set features emits each distinct element once, in an
order the language leaves unspecified; first-occurrence order (List.dedup)
is used here. -/
def ClothingItem.toItemDict (c : ClothingItem) (n : Nat) : ItemDict :=
  { category := c.category
    description := c.description
    color := c.color
    gender := c.gender
    fabric := c.fabric
    pattern := c.pattern
    fit := c.fit
    sleeve_length := c.sleeve_length
    neck_type := c.neck_type
    occasion := c.occasion
    season := c.season
    features := c.features.dedup
    id := n }

/-- add_to_wardrobe (lines 79-84): assigns id = len(wardrobe) + 1, appends
the item dict, returns the id. -/
def StyleSyncBot.add_to_wardrobe (bot : StyleSyncBot) (clothing_item : ClothingItem) :
    Nat × StyleSyncBot :=
  let item_dict := clothing_item.toItemDict (bot.wardrobe.length + 1)
  (item_dict.id, ⟨bot.wardrobe ++ [item_dict]⟩)

/-- A sequence of add_to_wardrobe calls, collecting the returned ids. -/
def addMany (bot : StyleSyncBot) : List ClothingItem → List Nat × StyleSyncBot
  | [] => ([], bot)
  | c :: rest =>
    let step := bot.add_to_wardrobe c
    let more := addMany step.2 rest
    (step.1 :: more.1, more.2)

/-- get_item_by_id (lines 123-128): linear scan comparing
str(item[id]) == str(item_id).  The key is the str() of whatever was
passed; for stored ids (Python ints) str() is the decimal representation,
Nat.repr. -/
def StyleSyncBot.get_item_by_id (bot : StyleSyncBot) (item_id : String) :
    Option ItemDict :=
  bot.wardrobe.find? (fun item => Nat.repr item.id == item_id)

/-- get_item_by_id called with an integer id: str(item_id) = Nat.repr. -/
def StyleSyncBot.get_item_by_id_int (bot : StyleSyncBot) (item_id : Nat) :
    Option ItemDict :=
  bot.get_item_by_id (Nat.repr item_id)

/-- State-passing form of a get_item_by_id method call: the method body
(lines 123-128) contains no assignment to self.wardrobe, so the post-call
state is the pre-call state. -/
def StyleSyncBot.get_item_by_id_call (bot : StyleSyncBot) (item_id : String) :
    Option ItemDict × StyleSyncBot :=
  (bot.get_item_by_id item_id, bot)

/-- Outcome of analyze_clothing_image: returned value, bot state after the
call, and the st.error messages displayed. -/
structure AnalyzeOutcome where
  result : Option ClothingItem
  bot : StyleSyncBot
  errors : List String
deriving Repr, DecidableEq

/-- analyze_clothing_image (lines 51-77): encodes the image, invokes the
structured LLM (modelled as the function gw keyed by the base64 payload;
the surrounding prompt text is fixed), and on any exception displays
st.error and returns None.  No branch touches self.wardrobe. -/
def StyleSyncBot.analyze_clothing_image (bot : StyleSyncBot)
    (gw : String → GatewayResult ClothingItem) (image_bytes : List Nat) :
    AnalyzeOutcome :=
  match gw (StyleSyncBot.encode_image image_bytes) with
  | .ok response => ⟨some response, bot, []⟩
  | .exn e => ⟨none, bot, ["Error analyzing image: " ++ e]⟩

/-- The upload flow of main (lines 246-255): analyze the image, and only
when the result is truthy add it to the wardrobe.  Returns the bot state,
the id assigned (if any), and the error messages displayed. -/
def analyze_and_add (bot : StyleSyncBot)
    (gw : String → GatewayResult ClothingItem) (image_bytes : List Nat) :
    StyleSyncBot × Option Nat × List String :=
  let out := bot.analyze_clothing_image gw image_bytes
  match out.result with
  | some clothing_item =>
    let step := out.bot.add_to_wardrobe clothing_item
    (step.2, some step.1, out.errors)
  | none => (out.bot, none, out.errors)

/-- JSON serialisation of a wardrobe entry, with the dict's key order
(pydantic field order, id last), as json.dumps renders it. -/
def ItemDict.toJson (it : ItemDict) : Json :=
  .obj [("category", .str it.category),
        ("description", .str it.description),
        ("color", .arr (it.color.map .str)),
        ("gender", .str it.gender),
        ("fabric", .str it.fabric),
        ("pattern", .str it.pattern),
        ("fit", .str it.fit),
        ("sleeve_length", .str it.sleeve_length),
        ("neck_type", .str it.neck_type),
        ("occasion", .arr (it.occasion.map .str)),
        ("season", .arr (it.season.map .str)),
        ("features", .arr (it.features.map .str)),
        ("id", .num it.id)]

/-- json.dumps of the whole wardrobe (main, line 339): a JSON array of the
item dicts in insertion order. -/
def wardrobeDumps (wardrobe : List ItemDict) : Json :=
  .arr (wardrobe.map ItemDict.toJson)

/-- Key lookup in a JSON object's field list (first binding wins, as in a
Python dict, whose keys are unique). -/
def lookupField : List (String × Json) → String → Option Json
  | [], _ => none
  | (k, v) :: rest, key => if k == key then some v else lookupField rest key

/-- Read a JSON string. -/
def Json.asStr : Json → Option String
  | .str s => some s
  | _ => none

/-- Read a JSON number as a natural. -/
def Json.asNum : Json → Option Nat
  | .num n => some n
  | _ => none

/-- Read a JSON array of strings. -/
def Json.asStrList : Json → Option (List String)
  | .arr [] => some []
  | .arr (.str s :: rest) =>
    (Json.asStrList (.arr rest)).map (fun tail => s :: tail)
  | _ => none

/-- Reparse one exported wardrobe entry (the inverse direction of the
round trip: json.loads on one element of the dumped array, validated back
into the item-dict shape). -/
def ItemDict.fromJson : Json → Option ItemDict
  | .obj fields => do
    let category ← (lookupField fields "category").bind Json.asStr
    let description ← (lookupField fields "description").bind Json.asStr
    let color ← (lookupField fields "color").bind Json.asStrList
    let gender ← (lookupField fields "gender").bind Json.asStr
    let fabric ← (lookupField fields "fabric").bind Json.asStr
    let pattern ← (lookupField fields "pattern").bind Json.asStr
    let fit ← (lookupField fields "fit").bind Json.asStr
    let sleeve_length ← (lookupField fields "sleeve_length").bind Json.asStr
    let neck_type ← (lookupField fields "neck_type").bind Json.asStr
    let occasion ← (lookupField fields "occasion").bind Json.asStrList
    let season ← (lookupField fields "season").bind Json.asStrList
    let features ← (lookupField fields "features").bind Json.asStrList
    let n ← (lookupField fields "id").bind Json.asNum
    pure { category := category, description := description, color := color,
           gender := gender, fabric := fabric, pattern := pattern, fit := fit,
           sleeve_length := sleeve_length, neck_type := neck_type,
           occasion := occasion, season := season, features := features,
           id := n }
  | _ => none

/-- Reparse a list of exported entries. -/
def wardrobeItemsLoads : List Json → Option (List ItemDict)
  | [] => some []
  | j :: rest =>
    (ItemDict.fromJson j).bind fun it =>
      (wardrobeItemsLoads rest).map (fun tail => it :: tail)

/-- json.loads of an exported wardrobe. -/
def wardrobeLoads : Json → Option (List ItemDict)
  | .arr elements => wardrobeItemsLoads elements
  | _ => none

/-- The data sent to the Model Gateway by get_outfit_recommendations
(lines 92-115): the prompt embeds json.dumps(self.wardrobe, indent=2), the
recommendation cap, and the user preference text; the remaining prompt
text is fixed. -/
structure RecRequest where
  wardrobeJson : Json
  num_recommendations : Nat
  user_preferences : String

/-- Outcome of get_outfit_recommendations: returned value, bot state after
the call, Model Gateway invocations made, and st.error messages shown. -/
structure RecOutcome where
  result : Option OutfitRecommendation
  bot : StyleSyncBot
  gatewayCalls : List RecRequest
  errors : List String

/-- The recommendation prompt data (lines 92-115) for the current bot
state: the serialised wardrobe, the recommendation cap, and the user
preference text. -/
def recRequest (bot : StyleSyncBot) (user_preferences : String)
    (num_recommendations : Nat) : RecRequest :=
  ⟨wardrobeDumps bot.wardrobe, num_recommendations, user_preferences⟩

/-- get_outfit_recommendations (lines 86-121): returns None at once on an
empty wardrobe (line 88-89) without building a prompt or invoking the
gateway; otherwise invokes the recommendation LLM once and returns its
parsed response, or catches any exception, shows st.error and returns
None.  The num_recommendations parameter defaults to 3 at call sites. -/
def StyleSyncBot.get_outfit_recommendations (bot : StyleSyncBot)
    (gw : RecRequest → GatewayResult OutfitRecommendation)
    (user_preferences : String) (num_recommendations : Nat) : RecOutcome :=
  if bot.wardrobe.isEmpty then
    ⟨none, bot, [], []⟩
  else
    match gw (recRequest bot user_preferences num_recommendations) with
    | .ok response =>
      ⟨some response, bot, [recRequest bot user_preferences num_recommendations], []⟩
    | .exn e =>
      ⟨none, bot, [recRequest bot user_preferences num_recommendations],
        ["Error getting recommendations: " ++ e]⟩

/-- The item-rendering loop of display_outfit_recommendation
(lines 136-149): for each listed id, look the item up; render a card when
found, silently move on when not. -/
def renderItems (bot : StyleSyncBot) : List String → List (String × ItemDict)
  | [] => []
  | item_id :: rest =>
    match bot.get_item_by_id item_id with
    | some item => (item_id, item) :: renderItems bot rest
    | none => renderItems bot rest

/-- What display_outfit_recommendation renders: the item cards (id and
resolved item, in list order), the reasoning text, whether the styling-tips
header appears, and the tip lines. -/
structure DisplayOutput where
  renderedItems : List (String × ItemDict)
  reasoning : String
  tipsHeader : Bool
  styleTips : List String
deriving Repr, DecidableEq

/-- display_outfit_recommendation (lines 130-159): renders each resolvable
recommended item, then the reasoning, then the styling tips (the header
only when the tip list is non-empty, line 156). -/
def StyleSyncBot.display_outfit_recommendation (bot : StyleSyncBot)
    (recommendation : OutfitRecommendation) : DisplayOutput :=
  { renderedItems := renderItems bot recommendation.recommended_items
    reasoning := recommendation.reasoning
    tipsHeader := !recommendation.style_tips.isEmpty
    styleTips := recommendation.style_tips }

/-- State-passing form of a display_outfit_recommendation method call: the
method body (lines 130-159) contains no assignment to self.wardrobe, so
the post-call state is the pre-call state. -/
def StyleSyncBot.display_outfit_recommendation_call (bot : StyleSyncBot)
    (recommendation : OutfitRecommendation) : DisplayOutput × StyleSyncBot :=
  (bot.display_outfit_recommendation recommendation, bot)

/-- Accumulate one decimal digit character into a value. -/
def decimalStep (a : Nat) (c : Char) : Nat := a * 10 + (c.toNat - 48)

/-- Decimal value of a digit string. -/
def decimalVal (l : List Char) : Nat := l.foldl decimalStep 0

/-- Number of decimal digits of a natural number. -/
def numDigits (n : Nat) : Nat :=
  if h : n < 10 then 1 else numDigits (n / 10) + 1
termination_by n
decreasing_by
  exact Nat.div_lt_self (by omega) (by omega)

lemma digitChar_toNat (d : Nat) (h : d < 10) : (Nat.digitChar d).toNat = 48 + d := by
  interval_cases d <;> rfl

lemma toDigitsCore_foldl :
    ∀ (fuel n : Nat), n < fuel → ∀ (ds : List Char) (a : Nat),
      (Nat.toDigitsCore 10 fuel n ds).foldl decimalStep a
        = ds.foldl decimalStep (a * 10 ^ numDigits n + n) := by
  intro fuel
  induction fuel with
  | zero => intro n h; omega
  | succ fuel ih =>
    intro n h ds a
    rcases Nat.lt_or_ge n 10 with h10 | h10
    · have h0 : n / 10 = 0 := Nat.div_eq_of_lt h10
      have hd : numDigits n = 1 := by rw [numDigits]; simp [h10]
      have hacc : decimalStep a (Nat.digitChar (n % 10)) = a * 10 ^ numDigits n + n := by
        unfold decimalStep
        rw [digitChar_toNat (n % 10) (Nat.mod_lt n (by omega)), hd, pow_one]
        omega
      simp [Nat.toDigitsCore, h0, hacc]
    · have hn0 : 0 < n := by omega
      have h0 : n / 10 ≠ 0 := by
        have : 0 < n / 10 := Nat.div_pos h10 (by omega)
        omega
      have hlt : n / 10 < fuel := by
        have := Nat.div_lt_self hn0 (by omega : 1 < 10)
        omega
      have hd : numDigits n = numDigits (n / 10) + 1 := by
        rw [numDigits]
        simp [Nat.not_lt.mpr h10]
      simp only [Nat.toDigitsCore, if_neg h0]
      rw [ih (n / 10) hlt]
      simp only [List.foldl_cons, decimalStep,
        digitChar_toNat (n % 10) (Nat.mod_lt n (by omega)), hd, pow_succ]
      have harr : 48 + n % 10 - 48 = n % 10 := by omega
      rw [harr, ← mul_assoc]
      have hgen : ∀ q : Nat, (q + n / 10) * 10 + n % 10 = q * 10 + n := by
        intro q; omega
      rw [hgen]

lemma decimalVal_toDigits (n : Nat) : decimalVal (Nat.toDigits 10 n) = n := by
  unfold Nat.toDigits decimalVal
  rw [toDigitsCore_foldl (n + 1) n (Nat.lt_succ_self n) [] 0]
  simp

lemma nat_repr_injective : Function.Injective Nat.repr := by
  intro m n h
  have hdata : Nat.toDigits 10 m = Nat.toDigits 10 n := by
    have h2 := congrArg String.data h
    simpa [Nat.repr, List.asString] using h2
  have h3 := congrArg decimalVal hdata
  simpa [decimalVal_toDigits] using h3

lemma repr_beq_true_iff (a k : Nat) : (Nat.repr a == Nat.repr k) = true ↔ a = k := by
  constructor
  · intro h
    exact nat_repr_injective (by simpa using h)
  · intro h
    subst h
    simp

lemma repr_beq_false (a k : Nat) (h : a ≠ k) : (Nat.repr a == Nat.repr k) = false := by
  rcases hb : (Nat.repr a == Nat.repr k) with hf | ht
  · rfl
  · exact absurd ((repr_beq_true_iff a k).mp hb) h

/-- The entries a run of add_to_wardrobe calls appends, ids from s on. -/
def buildItems (s : Nat) : List ClothingItem → List ItemDict
  | [] => []
  | c :: rest => c.toItemDict s :: buildItems (s + 1) rest

lemma toItemDict_id (c : ClothingItem) (n : Nat) : (c.toItemDict n).id = n := rfl

lemma addMany_eq (items : List ClothingItem) :
    ∀ bot : StyleSyncBot,
      addMany bot items =
        (List.range' (bot.wardrobe.length + 1) items.length,
         ⟨bot.wardrobe ++ buildItems (bot.wardrobe.length + 1) items⟩) := by
  induction items with
  | nil => intro bot; simp [addMany, buildItems, List.range']
  | cons c rest ih =>
    intro bot
    simp only [addMany, StyleSyncBot.add_to_wardrobe]
    rw [ih ⟨bot.wardrobe ++ [c.toItemDict (bot.wardrobe.length + 1)]⟩]
    simp [buildItems, List.range', toItemDict_id, List.append_assoc,
      Nat.add_assoc, Nat.add_comm 1 1]

lemma buildItems_length (items : List ClothingItem) :
    ∀ s, (buildItems s items).length = items.length := by
  induction items with
  | nil => intro s; rfl
  | cons c rest ih => intro s; simp [buildItems, ih]

lemma buildItems_map_id (items : List ClothingItem) :
    ∀ s, (buildItems s items).map ItemDict.id = List.range' s items.length := by
  induction items with
  | nil => intro s; rfl
  | cons c rest ih => intro s; simp [buildItems, List.range', toItemDict_id, ih]

lemma buildItems_getElem (items : List ClothingItem) :
    ∀ s i, ∀ hi : i < items.length,
      (buildItems s items).get ⟨i, by rw [buildItems_length]; exact hi⟩ =
        (items.get ⟨i, hi⟩).toItemDict (s + i) := by
  induction items with
  | nil => intro s i hi; simp at hi
  | cons c rest ih =>
    intro s i hi
    match i with
    | 0 => rfl
    | i + 1 =>
      have hr : i < rest.length := by simpa using hi
      have := ih (s + 1) i hr
      simpa [buildItems, Nat.add_assoc, Nat.add_comm 1 i] using this

lemma buildItems_find?_some (items : List ClothingItem) :
    ∀ s k, s ≤ k → k < s + items.length →
      ∃ c, c ∈ items ∧
        (buildItems s items).find? (fun item => Nat.repr item.id == Nat.repr k) =
          some (c.toItemDict k) := by
  induction items with
  | nil => intro s k h1 h2; simp at h2; omega
  | cons c rest ih =>
    intro s k h1 h2
    by_cases hk : s = k
    · subst hk
      refine ⟨c, List.mem_cons_self c rest, ?_⟩
      simp [buildItems, List.find?, toItemDict_id]
    · have h3 : s + 1 ≤ k := by omega
      have h4 : k < s + 1 + rest.length := by
        simp at h2
        omega
      obtain ⟨c', hmem, hfind⟩ := ih (s + 1) k h3 h4
      refine ⟨c', List.mem_cons_of_mem c hmem, ?_⟩
      rw [buildItems]
      rw [List.find?_cons_of_neg]
      · exact hfind
      · simp [toItemDict_id, repr_beq_false s k hk]

lemma buildItems_find?_none (items : List ClothingItem) :
    ∀ s k, k < s ∨ s + items.length ≤ k →
      (buildItems s items).find? (fun item => Nat.repr item.id == Nat.repr k) = none := by
  induction items with
  | nil => intro s k h; rfl
  | cons c rest ih =>
    intro s k h
    have hk : s ≠ k := by
      rcases h with h | h
      · omega
      · simp at h
        omega
    rw [buildItems, List.find?_cons_of_neg]
    · refine ih (s + 1) k ?_
      rcases h with h | h
      · left; omega
      · right
        simp at h
        omega
    · simp [toItemDict_id, repr_beq_false s k hk]

lemma asStrList_map_str (xs : List String) :
    Json.asStrList (.arr (xs.map .str)) = some xs := by
  induction xs with
  | nil => simp [Json.asStrList]
  | cons x rest ih => simp [Json.asStrList, ih]

lemma fromJson_toJson (it : ItemDict) : ItemDict.fromJson it.toJson = some it := by
  simp [ItemDict.toJson, ItemDict.fromJson, lookupField, Json.asStr, Json.asNum,
    asStrList_map_str]

lemma wardrobeItemsLoads_map (w : List ItemDict) :
    wardrobeItemsLoads (w.map ItemDict.toJson) = some w := by
  induction w with
  | nil => rfl
  | cons it rest ih => simp [wardrobeItemsLoads, fromJson_toJson, ih]

lemma wardrobeLoads_dumps (w : List ItemDict) :
    wardrobeLoads (wardrobeDumps w) = some w := by
  simp [wardrobeLoads, wardrobeDumps, wardrobeItemsLoads_map]

lemma renderItems_eq_filterMap (bot : StyleSyncBot) (ids : List String) :
    renderItems bot ids =
      ids.filterMap
        (fun item_id => (bot.get_item_by_id item_id).map (fun item => (item_id, item))) := by
  induction ids with
  | nil => rfl
  | cons i rest ih =>
    rw [renderItems]
    cases h : bot.get_item_by_id i with
    | none => simp [h, ih]
    | some item => simp [h, ih]

lemma renderItems_map_fst (bot : StyleSyncBot) (ids : List String) :
    (renderItems bot ids).map Prod.fst =
      ids.filter (fun item_id => (bot.get_item_by_id item_id).isSome) := by
  induction ids with
  | nil => rfl
  | cons i rest ih =>
    rw [renderItems]
    cases h : bot.get_item_by_id i with
    | none => simp [h, ih, List.filter]
    | some item => simp [h, ih, List.filter]

lemma get_outfit_recommendations_bot (bot : StyleSyncBot)
    (gw : RecRequest → GatewayResult OutfitRecommendation)
    (user_preferences : String) (num_recommendations : Nat) :
    (bot.get_outfit_recommendations gw user_preferences num_recommendations).bot = bot := by
  unfold StyleSyncBot.get_outfit_recommendations
  split
  · rfl
  · split <;> rfl

lemma analyze_clothing_image_bot (bot : StyleSyncBot)
    (gw : String → GatewayResult ClothingItem) (image_bytes : List Nat) :
    (bot.analyze_clothing_image gw image_bytes).bot = bot := by
  unfold StyleSyncBot.analyze_clothing_image
  split <;> rfl

/-- The bot state at session start: an empty wardrobe (line 45). -/
def initialBot : StyleSyncBot := ⟨[]⟩

/-- A concrete analyzed clothing item (the scenario of spec section 8). -/
def sampleItem : ClothingItem :=
  { category := "T-Shirt", description := "A blue cotton tee", color := ["Blue"],
    gender := "Unisex", fabric := "Cotton", pattern := "Solid",
    fit := "Regular Fit", sleeve_length := "Short", neck_type := "Round",
    occasion := ["Casual"], season := ["Summer"], features := ["Breathable"] }

/-- A second concrete analyzed clothing item. -/
def sampleItem2 : ClothingItem :=
  { category := "Pants", description := "Black denim jeans", color := ["Black"],
    gender := "Unisex", fabric := "Denim", pattern := "Solid",
    fit := "Slim Fit", sleeve_length := "N/A", neck_type := "N/A",
    occasion := ["Casual"], season := ["Winter"], features := ["Pockets"] }

/-- A bot whose wardrobe holds one item. -/
def sampleBot : StyleSyncBot := (initialBot.add_to_wardrobe sampleItem).2

/-- A Model Gateway whose recommendation call always raises. -/
def failRecGw : RecRequest → GatewayResult OutfitRecommendation :=
  fun _ => .exn "network error"

/-- A Model Gateway whose analyze call always raises. -/
def failAnalyzeGw : String → GatewayResult ClothingItem :=
  fun _ => .exn "network error"

/-- A model reply whose recommended id 999 exists in no wardrobe. -/
def danglingRec : OutfitRecommendation :=
  { recommended_items := ["999"], reasoning := "Pair them boldly",
    style_tips := ["Roll the sleeves"] }

/-- A Model Gateway whose recommendation call returns danglingRec. -/
def okRecGw : RecRequest → GatewayResult OutfitRecommendation :=
  fun _ => .ok danglingRec

/-- C1: for every sequence of N successful add calls on a bot created empty,
the returned ids are exactly 1..N in call order, with no gaps or repeats;
each add appends the item and assigns id = size + 1 at insertion time. -/
theorem C1_add_ids_sequential :
    ∀ (items : List ClothingItem) (bot : StyleSyncBot) (c : ClothingItem),
      (addMany initialBot items).1 = List.range' 1 items.length
      ∧ (bot.add_to_wardrobe c).1 = bot.wardrobe.length + 1
      ∧ (bot.add_to_wardrobe c).2.wardrobe
          = bot.wardrobe ++ [c.toItemDict (bot.wardrobe.length + 1)] := by
  intro items bot c
  refine ⟨?_, rfl, rfl⟩
  rw [addMany_eq items initialBot]
  rfl

/-- C2 counterexample: the claim calls the empty-wardrobe return value an
indicator distinct from an error result, but get_outfit_recommendations
returns the very same None in the empty-wardrobe case and in the
gateway-failure case. -/
theorem C2_counterexample :
    (initialBot.get_outfit_recommendations failRecGw "Casual" 3).result = none
    ∧ (sampleBot.get_outfit_recommendations failRecGw "Casual" 3).result = none
    ∧ sampleBot.wardrobe ≠ [] := by
  refine ⟨rfl, rfl, ?_⟩
  simp [sampleBot, initialBot, StyleSyncBot.add_to_wardrobe]

/-- C2 (amended): with an empty wardrobe, get_outfit_recommendations
returns None immediately, never invokes the Model Gateway and displays no
error message; the None sentinel is the one the error path also returns,
the two cases being distinguishable only by the error display and the
gateway call. -/
theorem C2_empty_wardrobe_short_circuit :
    ∀ (bot : StyleSyncBot) (gw : RecRequest → GatewayResult OutfitRecommendation)
      (user_preferences : String) (num_recommendations : Nat),
      bot.wardrobe = [] →
      (bot.get_outfit_recommendations gw user_preferences num_recommendations).result = none
      ∧ (bot.get_outfit_recommendations gw user_preferences num_recommendations).gatewayCalls = []
      ∧ (bot.get_outfit_recommendations gw user_preferences num_recommendations).errors = [] := by
  intro bot gw p n h
  have he : bot.wardrobe.isEmpty = true := by simp [h]
  simp [StyleSyncBot.get_outfit_recommendations, he]

/-- Witness for C2: the empty-wardrobe short circuit at the initial bot. -/
theorem C2_empty_wardrobe_short_circuit_witness :
    (initialBot.get_outfit_recommendations failRecGw "Casual" 3).result = none
    ∧ (initialBot.get_outfit_recommendations failRecGw "Casual" 3).gatewayCalls = []
    ∧ (initialBot.get_outfit_recommendations failRecGw "Casual" 3).errors = [] :=
  C2_empty_wardrobe_short_circuit initialBot failRecGw "Casual" 3 rfl

/-- C4: when the Model Gateway raises on an analyze call, the method
catches the fault, displays the error text and returns None instead of
propagating the exception; the wardrobe is unchanged, and the main upload
flow adds no partial item. -/
theorem C4_analyze_failure_caught :
    ∀ (bot : StyleSyncBot) (gw : String → GatewayResult ClothingItem)
      (image_bytes : List Nat) (e : String),
      gw (StyleSyncBot.encode_image image_bytes) = .exn e →
        (bot.analyze_clothing_image gw image_bytes).result = none
        ∧ (bot.analyze_clothing_image gw image_bytes).bot = bot
        ∧ (bot.analyze_clothing_image gw image_bytes).errors
            = ["Error analyzing image: " ++ e]
        ∧ (analyze_and_add bot gw image_bytes).1 = bot
        ∧ (analyze_and_add bot gw image_bytes).2.1 = none := by
  intro bot gw img e h
  simp [StyleSyncBot.analyze_clothing_image, analyze_and_add, h]

/-- Witness for C4: a gateway that raises on every analyze call. -/
theorem C4_analyze_failure_caught_witness :
    (sampleBot.analyze_clothing_image failAnalyzeGw [1, 2, 3]).result = none
    ∧ (sampleBot.analyze_clothing_image failAnalyzeGw [1, 2, 3]).bot = sampleBot
    ∧ (sampleBot.analyze_clothing_image failAnalyzeGw [1, 2, 3]).errors
        = ["Error analyzing image: " ++ "network error"]
    ∧ (analyze_and_add sampleBot failAnalyzeGw [1, 2, 3]).1 = sampleBot
    ∧ (analyze_and_add sampleBot failAnalyzeGw [1, 2, 3]).2.1 = none :=
  C4_analyze_failure_caught sampleBot failAnalyzeGw [1, 2, 3] "network error" rfl

lemma addMany_initial_wardrobe (items : List ClothingItem) :
    (addMany initialBot items).2.wardrobe = buildItems 1 items := by
  rw [addMany_eq items initialBot]
  rfl

/-- C3: on any wardrobe state reached by a sequence of adds, get_item_by_id
finds an assigned id whether it is supplied as an integer or as its textual
representation (both normalise through str to the same lookup), returning
the item carrying that id, and returns None for any id not yet assigned. -/
theorem C3_get_item_by_id_int_or_text :
    ∀ (items : List ClothingItem) (k : Nat),
      (1 ≤ k → k ≤ items.length →
        ∃ it, (addMany initialBot items).2.get_item_by_id_int k = some it
          ∧ (addMany initialBot items).2.get_item_by_id (Nat.repr k) = some it
          ∧ it.id = k)
      ∧ ((k = 0 ∨ items.length < k) →
          (addMany initialBot items).2.get_item_by_id_int k = none
          ∧ (addMany initialBot items).2.get_item_by_id (Nat.repr k) = none) := by
  intro items k
  constructor
  · intro h1 h2
    obtain ⟨c, hmem, hfind⟩ := buildItems_find?_some items 1 k h1 (by omega)
    refine ⟨c.toItemDict k, ?_, ?_, rfl⟩
    · simp [StyleSyncBot.get_item_by_id_int, StyleSyncBot.get_item_by_id,
        addMany_initial_wardrobe, hfind]
    · simp [StyleSyncBot.get_item_by_id, addMany_initial_wardrobe, hfind]
  · intro h
    have hn := buildItems_find?_none items 1 k (by omega)
    refine ⟨?_, ?_⟩
    · simp [StyleSyncBot.get_item_by_id_int, StyleSyncBot.get_item_by_id,
        addMany_initial_wardrobe, hn]
    · simp [StyleSyncBot.get_item_by_id, addMany_initial_wardrobe, hn]

/-- Witness for C3: in a two-item wardrobe, id 2 is found both ways, id 5
is not found either way. -/
theorem C3_get_item_by_id_int_or_text_witness :
    (∃ it, (addMany initialBot [sampleItem, sampleItem2]).2.get_item_by_id_int 2 = some it
      ∧ (addMany initialBot [sampleItem, sampleItem2]).2.get_item_by_id (Nat.repr 2) = some it
      ∧ it.id = 2)
    ∧ ((addMany initialBot [sampleItem, sampleItem2]).2.get_item_by_id_int 5 = none
      ∧ (addMany initialBot [sampleItem, sampleItem2]).2.get_item_by_id (Nat.repr 5) = none) :=
  ⟨(C3_get_item_by_id_int_or_text [sampleItem, sampleItem2] 2).1 (by decide) (by decide),
   (C3_get_item_by_id_int_or_text [sampleItem, sampleItem2] 5).2 (by decide)⟩

/-- C5: exporting any wardrobe reached by adds and reparsing the export
reproduces the wardrobe exactly (every item field-for-field, insertion
order preserved); each stored entry keeps the source item's color,
occasion and season lists verbatim (order-sensitive), and its features
with set semantics: duplicate-free, same membership as the analyzed
item's feature set. -/
theorem C5_export_round_trip :
    ∀ (items : List ClothingItem) (c : ClothingItem) (n : Nat),
      wardrobeLoads (wardrobeDumps (addMany initialBot items).2.wardrobe)
          = some (addMany initialBot items).2.wardrobe
      ∧ (addMany initialBot items).2.wardrobe = buildItems 1 items
      ∧ (c.toItemDict n).category = c.category
      ∧ (c.toItemDict n).description = c.description
      ∧ (c.toItemDict n).color = c.color
      ∧ (c.toItemDict n).gender = c.gender
      ∧ (c.toItemDict n).fabric = c.fabric
      ∧ (c.toItemDict n).pattern = c.pattern
      ∧ (c.toItemDict n).fit = c.fit
      ∧ (c.toItemDict n).sleeve_length = c.sleeve_length
      ∧ (c.toItemDict n).neck_type = c.neck_type
      ∧ (c.toItemDict n).occasion = c.occasion
      ∧ (c.toItemDict n).season = c.season
      ∧ (c.toItemDict n).features.Nodup
      ∧ (∀ x, x ∈ (c.toItemDict n).features ↔ x ∈ c.features) := by
  intro items c n
  refine ⟨wardrobeLoads_dumps _, addMany_initial_wardrobe items, rfl, rfl, rfl, rfl,
    rfl, rfl, rfl, rfl, rfl, rfl, rfl, c.features.nodup_dedup, fun x => List.mem_dedup⟩

/-- C6: display_outfit_recommendation renders exactly the recommended ids
that resolve in the current wardrobe, in list order, silently skipping
every dangling id, and always renders the reasoning and the style tips
(the tips header appearing when the tip list is non-empty). -/
theorem C6_display_skips_missing_ids :
    ∀ (bot : StyleSyncBot) (recommendation : OutfitRecommendation),
      (bot.display_outfit_recommendation recommendation).renderedItems
          = recommendation.recommended_items.filterMap
              (fun item_id => (bot.get_item_by_id item_id).map (fun item => (item_id, item)))
      ∧ (bot.display_outfit_recommendation recommendation).renderedItems.map Prod.fst
          = recommendation.recommended_items.filter
              (fun item_id => (bot.get_item_by_id item_id).isSome)
      ∧ (bot.display_outfit_recommendation recommendation).reasoning
          = recommendation.reasoning
      ∧ (bot.display_outfit_recommendation recommendation).styleTips
          = recommendation.style_tips
      ∧ (bot.display_outfit_recommendation recommendation).tipsHeader
          = !recommendation.style_tips.isEmpty := by
  intro bot r
  exact ⟨renderItems_eq_filterMap bot r.recommended_items,
    renderItems_map_fst bot r.recommended_items, rfl, rfl, rfl⟩

/-- C7: on every state reached by adds, stored ids are strictly increasing
in insertion order (hence pairwise distinct); a further add leaves every
existing entry untouched (the old wardrobe is a prefix of the new), and
the read operations return the state unchanged. -/
theorem C7_wardrobe_invariant :
    ∀ (items : List ClothingItem),
      ((addMany initialBot items).2.wardrobe.map ItemDict.id).Pairwise (· < ·)
      ∧ ((addMany initialBot items).2.wardrobe.map ItemDict.id).Nodup
      ∧ (∀ c : ClothingItem,
          ((addMany initialBot items).2.add_to_wardrobe c).2.wardrobe.take
              (addMany initialBot items).2.wardrobe.length
            = (addMany initialBot items).2.wardrobe)
      ∧ (∀ (gw : RecRequest → GatewayResult OutfitRecommendation) (p : String) (n : Nat),
          ((addMany initialBot items).2.get_outfit_recommendations gw p n).bot
            = (addMany initialBot items).2)
      ∧ (∀ key : String,
          ((addMany initialBot items).2.get_item_by_id_call key).2
            = (addMany initialBot items).2) := by
  intro items
  have hmap : (addMany initialBot items).2.wardrobe.map ItemDict.id
      = List.range' 1 items.length := by
    rw [addMany_initial_wardrobe, buildItems_map_id]
  refine ⟨?_, ?_, ?_, ?_, ?_⟩
  · rw [hmap]
    simpa using List.pairwise_lt_range' 1 items.length
  · rw [hmap]
    simpa using List.nodup_range' 1 items.length
  · intro c
    exact List.take_left _ _
  · intro gw p n
    exact get_outfit_recommendations_bot _ gw p n
  · intro key
    rfl

/-- C8: when the wardrobe is non-empty and the Model Gateway parse
succeeds, get_outfit_recommendations returns the parsed recommendation
unchanged — nothing relates the returned recommended_items to the current
wardrobe ids, so stale or nonexistent references pass through. -/
theorem C8_result_returned_unvalidated :
    ∀ (bot : StyleSyncBot) (gw : RecRequest → GatewayResult OutfitRecommendation)
      (p : String) (n : Nat) (r : OutfitRecommendation),
      bot.wardrobe ≠ [] →
      gw (recRequest bot p n) = .ok r →
      (bot.get_outfit_recommendations gw p n).result = some r := by
  intro bot gw p n r h hg
  obtain ⟨w⟩ := bot
  cases w with
  | nil => exact absurd rfl h
  | cons a t => simp [StyleSyncBot.get_outfit_recommendations, hg]

/-- Witness for C8: a one-item wardrobe and a gateway reply naming the
nonexistent id 999 is returned as-is. -/
theorem C8_result_returned_unvalidated_witness :
    (sampleBot.get_outfit_recommendations okRecGw "Casual" 3).result = some danglingRec
    ∧ sampleBot.get_item_by_id "999" = none :=
  ⟨C8_result_returned_unvalidated sampleBot okRecGw "Casual" 3 danglingRec
      (by decide) rfl,
   by decide⟩

/-- C9 (implicit): get_item_by_id matches only on exact string equality of
decimal representations — a successful lookup forces the key to be the
stored id's exact str() form, and textual keys that are numerically equal
but not character-identical (01, 1 with a trailing space, 1.0) miss. -/
theorem C9_exact_string_match :
    (∀ (bot : StyleSyncBot) (s : String) (it : ItemDict),
        bot.get_item_by_id s = some it → Nat.repr it.id = s ∧ it ∈ bot.wardrobe)
    ∧ sampleBot.get_item_by_id "01" = none
    ∧ sampleBot.get_item_by_id "1 " = none
    ∧ sampleBot.get_item_by_id "1.0" = none
    ∧ sampleBot.get_item_by_id "1" = some (sampleItem.toItemDict 1) := by
  refine ⟨?_, by decide, by decide, by decide, by decide⟩
  intro bot s it h
  unfold StyleSyncBot.get_item_by_id at h
  constructor
  · have hp := List.find?_some h
    simpa using hp
  · exact List.mem_of_find?_eq_some h

/-- Witness for C9: the lookup of the exact key 1 in the one-item wardrobe. -/
theorem C9_exact_string_match_witness :
    Nat.repr (sampleItem.toItemDict 1).id = "1"
    ∧ sampleItem.toItemDict 1 ∈ sampleBot.wardrobe :=
  C9_exact_string_match.1 sampleBot "1" (sampleItem.toItemDict 1) (by decide)

/-- C10 (implicit): get_item_by_id, display_outfit_recommendation and
every get_outfit_recommendations call (recommendation, empty-wardrobe
sentinel or error sentinel alike) leave the wardrobe unchanged — same
list, same order; only add_to_wardrobe modifies it (growing it by one). -/
theorem C10_reads_frame :
    ∀ (bot : StyleSyncBot),
      (∀ (gw : RecRequest → GatewayResult OutfitRecommendation) (p : String) (n : Nat),
          (bot.get_outfit_recommendations gw p n).bot = bot)
      ∧ (∀ (gw : String → GatewayResult ClothingItem) (image_bytes : List Nat),
          (bot.analyze_clothing_image gw image_bytes).bot = bot)
      ∧ (∀ key : String, (bot.get_item_by_id_call key).2 = bot)
      ∧ (∀ r : OutfitRecommendation, (bot.display_outfit_recommendation_call r).2 = bot)
      ∧ (∀ c : ClothingItem,
          (bot.add_to_wardrobe c).2.wardrobe.length = bot.wardrobe.length + 1) := by
  intro bot
  refine ⟨fun gw p n => get_outfit_recommendations_bot bot gw p n,
    fun gw image_bytes => analyze_clothing_image_bot bot gw image_bytes,
    fun key => rfl, fun r => rfl, fun c => ?_⟩
  simp [StyleSyncBot.add_to_wardrobe]
